import Mathlib

/-!
Shallow embedding of the MNE-Python configuration subsystem
(`src/mne/utils/config.py`): the known-key tables, `_load_config`,
`get_config_path`, `get_config` and `set_config`, together with proofs of
the specification claims about them.

Modelling conventions:
* A JSON object with string keys and string values is an association list
  `List (String × String)`; Python dict lookup is `List.lookup` (first
  match), `config[key] = value` is `dictSet`, `config.pop(key, None)` is a
  filter, and `json.dump(..., sort_keys=True)` sorts by key (`sortDoc`).
* The config file on disk is a `FileState`: absent, present-but-not-valid
  JSON (`corrupt`), or a valid JSON object (`valid doc`).
* `os.environ` is an association list of string pairs.
* Python's dynamically-typed arguments to `set_config` are `PyVal`;
  `_validate_type` checks become pattern matches on the constructors.
* Warnings emitted via `warn(...)` are collected in a returned list of
  message strings; raised exceptions become `Except.error` / a dedicated
  error constructor.
-/

namespace Mne

/-- A Python value as far as `set_config`'s argument validation is
concerned: a `str`, a path-like object (whose `str()` is a path string),
`None`, or any other object (e.g. an `int`), which fails
`_validate_type`. -/
inductive PyVal
  | str (s : String)
  | pathLike (s : String)
  | pyNone
  | other (desc : String)
deriving DecidableEq, Repr

/-- State of the config file on disk: missing, present but not valid JSON,
or a valid JSON object of string keys/values. -/
inductive FileState
  | absent
  | corrupt
  | valid (doc : List (String × String))
deriving DecidableEq, Repr

/-- The observable state `get_config`/`set_config` interact with: the
config file and the process environment (`os.environ`). -/
structure ConfigState where
  file : FileState
  env : List (String × String)
deriving DecidableEq, Repr

/-- `known_config_types` from config.py lines 69-143 (the duplicate
`MNE_DATASETS_EPILEPSY_ECOG_PATH` entry of the source tuple is kept). -/
def known_config_types : List String := [
  "MNE_3D_OPTION_ANTIALIAS",
  "MNE_3D_OPTION_DEPTH_PEELING",
  "MNE_3D_OPTION_MULTI_SAMPLES",
  "MNE_3D_OPTION_SMOOTH_SHADING",
  "MNE_3D_OPTION_THEME",
  "MNE_BROWSE_RAW_SIZE",
  "MNE_BROWSER_BACKEND",
  "MNE_BROWSER_OVERVIEW_MODE",
  "MNE_BROWSER_PRECOMPUTE",
  "MNE_BROWSER_THEME",
  "MNE_BROWSER_USE_OPENGL",
  "MNE_CACHE_DIR",
  "MNE_COREG_ADVANCED_RENDERING",
  "MNE_COREG_COPY_ANNOT",
  "MNE_COREG_FULLSCREEN",
  "MNE_COREG_GUESS_MRI_SUBJECT",
  "MNE_COREG_HEAD_HIGH_RES",
  "MNE_COREG_HEAD_OPACITY",
  "MNE_COREG_HEAD_INSIDE",
  "MNE_COREG_INTERACTION",
  "MNE_COREG_MARK_INSIDE",
  "MNE_COREG_PREPARE_BEM",
  "MNE_COREG_ORIENT_TO_SURFACE",
  "MNE_COREG_SCALE_LABELS",
  "MNE_COREG_SCALE_BY_DISTANCE",
  "MNE_COREG_SCENE_SCALE",
  "MNE_COREG_WINDOW_HEIGHT",
  "MNE_COREG_WINDOW_WIDTH",
  "MNE_COREG_SUBJECTS_DIR",
  "MNE_CUDA_DEVICE",
  "MNE_CUDA_IGNORE_PRECISION",
  "MNE_DATA",
  "MNE_DATASETS_BRAINSTORM_PATH",
  "MNE_DATASETS_EEGBCI_PATH",
  "MNE_DATASETS_EPILEPSY_ECOG_PATH",
  "MNE_DATASETS_HF_SEF_PATH",
  "MNE_DATASETS_MEGSIM_PATH",
  "MNE_DATASETS_MISC_PATH",
  "MNE_DATASETS_MTRF_PATH",
  "MNE_DATASETS_SAMPLE_PATH",
  "MNE_DATASETS_SOMATO_PATH",
  "MNE_DATASETS_MULTIMODAL_PATH",
  "MNE_DATASETS_FNIRS_MOTOR_PATH",
  "MNE_DATASETS_OPM_PATH",
  "MNE_DATASETS_SPM_FACE_DATASETS_TESTS",
  "MNE_DATASETS_SPM_FACE_PATH",
  "MNE_DATASETS_TESTING_PATH",
  "MNE_DATASETS_VISUAL_92_CATEGORIES_PATH",
  "MNE_DATASETS_KILOWORD_PATH",
  "MNE_DATASETS_FIELDTRIP_CMC_PATH",
  "MNE_DATASETS_PHANTOM_4DBTI_PATH",
  "MNE_DATASETS_LIMO_PATH",
  "MNE_DATASETS_REFMEG_NOISE_PATH",
  "MNE_DATASETS_SSVEP_PATH",
  "MNE_DATASETS_ERP_CORE_PATH",
  "MNE_DATASETS_EPILEPSY_ECOG_PATH",
  "MNE_DATASETS_UCL_OPM_AUDITORY_PATH",
  "MNE_FORCE_SERIAL",
  "MNE_KIT2FIFF_STIM_CHANNELS",
  "MNE_KIT2FIFF_STIM_CHANNEL_CODING",
  "MNE_KIT2FIFF_STIM_CHANNEL_SLOPE",
  "MNE_KIT2FIFF_STIM_CHANNEL_THRESHOLD",
  "MNE_LOGGING_LEVEL",
  "MNE_MEMMAP_MIN_SIZE",
  "MNE_REPR_HTML",
  "MNE_SKIP_FTP_TESTS",
  "MNE_SKIP_NETWORK_TESTS",
  "MNE_SKIP_TESTING_DATASET_TESTS",
  "MNE_STIM_CHANNEL",
  "MNE_TQDM",
  "MNE_USE_CUDA",
  "MNE_USE_NUMBA",
  "SUBJECTS_DIR"]

/-- `known_config_wildcards` from config.py lines 146-150: keys starting
with one of these are accepted without warning. -/
def known_config_wildcards : List String :=
  ["MNE_STIM_CHANNEL", "MNE_DATASETS_FNIRS", "MNE_NIRS"]

/-- Python dict lookup (`d[k]` / `k in d`): first matching key. -/
def envLookup (env : List (String × String)) (k : String) : Option String :=
  env.lookup k

/-- Python `d[k] = v` on a string-keyed dict: replace the value at `k`
in place if present, else append the new binding. -/
def dictSet (d : List (String × String)) (k v : String) :
    List (String × String) :=
  if (d.lookup k).isSome then
    d.map (fun p => if p.1 = k then (k, v) else p)
  else
    d ++ [(k, v)]

/-- Lexicographic comparison of character lists by code point — the
order Python sorts `str` keys by. -/
def charListLe : List Char → List Char → Bool
  | [], _ => true
  | _ :: _, [] => false
  | a :: as, b :: bs =>
    if a < b then true else if b < a then false else charListLe as bs

/-- Python string comparison `a <= b` (code-point lexicographic). -/
def strLe (a b : String) : Bool :=
  charListLe a.data b.data

/-- Insert a pair into a key-sorted association list. -/
def insertSorted (p : String × String) :
    List (String × String) → List (String × String)
  | [] => [p]
  | q :: rest =>
    if strLe p.1 q.1 then p :: q :: rest else q :: insertSorted p rest

/-- Sort an association list by key — the `sort_keys=True` of
`json.dump(config, fid, sort_keys=True, indent=0)` (config.py line 320). -/
def sortDoc : List (String × String) → List (String × String)
  | [] => []
  | p :: rest => insertSorted p (sortDoc rest)

/-- The corrupt-file message of `_load_config` (config.py lines 160-161). -/
def corruptMsg (config_path : String) : String :=
  "The MNE-Python config file (" ++ config_path ++
    ") is not a valid JSON file and might be corrupted"

/-- The warning of `set_config` for a key that is neither a
`known_config_types` member nor wildcard-prefixed (config.py line 295). -/
def nonStandardMsg (key : String) : String :=
  "Setting non-standard config type: \x22" ++ key ++ "\x22"

/-- `_load_config(config_path, raise_error)` (config.py lines 153-166),
called only when the file exists: a valid JSON file yields its object; a
corrupt one raises `RuntimeError(msg)` when `raise_error` else warns and
substitutes the empty dict.  The `absent` case is a total-function filler;
both callers check `op.isfile` first and never reach it. -/
def load_config (contents : FileState) (config_path : String)
    (raise_error : Bool) :
    Except String (List (String × String) × List String) :=
  match contents with
  | .valid doc => .ok (doc, [])
  | .corrupt =>
    if raise_error then .error (corruptMsg config_path)
    else .ok ([], [corruptMsg config_path])
  | .absent => .ok ([], [])

/-- The `op.isfile` guard of both callers composed with `_load_config`:
a missing file is the empty dict (config.py lines 236-239 and 299-302). -/
def readConfigFile (file : FileState) (config_path : String)
    (raise_error : Bool) :
    Except String (List (String × String) × List String) :=
  match file with
  | .absent => .ok ([], [])
  | f => load_config f config_path raise_error

/-- `get_config_path(home_dir)` for an explicitly given home directory
(config.py lines 169-187 together with `_get_extra_data_path`, which joins
`home_dir` with the fixed `.mne` subdirectory; the platform discovery
branches for `home_dir=None` are not needed by any claim). -/
def get_config_path (home_dir : String) : String :=
  home_dir ++ "/.mne" ++ "/mne-python.json"

/-- The message of the `KeyError` raised by `get_config` when
`raise_error` and the key is absent (config.py lines 248-260), built
exactly as the `%`-format of the source. -/
def keyNotFoundMsg (key config_path : String) (use_env : Bool) : String :=
  let loc_env := if use_env then "the environment or in the " else ""
  let meth_env :=
    if use_env then
      "either os.environ[\x22" ++ key ++
        "\x22] = VALUE for a temporary solution, or "
    else ""
  let extra_env :=
    if use_env then
      " You can also set the environment variable before running python."
    else ""
  let meth_file :=
    "mne.utils.set_config(\x22" ++ key ++
      "\x22, VALUE, set_env=True) for a permanent one"
  "Key \x22" ++ key ++ "\x22 not found in " ++ loc_env ++
    "the mne-python config file (" ++ config_path ++ "). Try " ++
    meth_env ++ meth_file ++ "." ++ extra_env

/-- What a `get_config` call returns (config.py lines 216-219 plus the
raised `KeyError`): a single value (possibly the default `None`), the full
mapping for `key=None`, the list of known keys for `key=""`, or a
`KeyError` with its message. -/
inductive GetResult
  | value (v : Option String)
  | mapping (d : List (String × String))
  | keys (ks : List String)
  | keyError (msg : String)
deriving DecidableEq, Repr

/-- The environment overlay of `get_config(key=None, use_env=True)`
(config.py lines 241-247): `env_keys = (set(config) | known_config_types)
& os.environ` and `config.update({k: os.environ[k] for k in env_keys})`.
Only exact `known_config_types` members or existing document keys are
consulted — the wildcards play no role here. -/
def overlayEnv (config env : List (String × String)) :
    List (String × String) :=
  let env_keys := (env.map Prod.fst).filter
    (fun k => (config.lookup k).isSome || known_config_types.contains k)
  env_keys.foldl (fun acc k => dictSet acc k ((envLookup env k).getD "")) config

/-- `get_config(key, default, raise_error, home_dir, use_env)`
(config.py lines 190-262), returning the result together with the list of
warnings emitted during the call. -/
def get_config (key : Option String) (default : Option String)
    (raise_error : Bool) (home_dir : String) (use_env : Bool)
    (st : ConfigState) : GetResult × List String :=
  match key with
  | some k =>
    if k = "" then (.keys known_config_types, [])
    else if use_env && (envLookup st.env k).isSome then
      (.value (envLookup st.env k), [])
    else
      let config_path := get_config_path home_dir
      let loaded :=
        match readConfigFile st.file config_path false with
        | .ok r => r
        | .error _ => ([], [])
      let config := loaded.1
      if raise_error && (config.lookup k).isNone then
        (.keyError (keyNotFoundMsg k config_path use_env), loaded.2)
      else
        (.value ((config.lookup k).orElse (fun _ => default)), loaded.2)
  | none =>
    let config_path := get_config_path home_dir
    let loaded :=
      match readConfigFile st.file config_path false with
      | .ok r => r
      | .error _ => ([], [])
    let config := loaded.1
    if use_env then (.mapping (overlayEnv config st.env), loaded.2)
    else (.mapping config, loaded.2)

/-- The errors `set_config` can raise: the two `_validate_type` failures
(config.py lines 286-289) and the `RuntimeError` of `_load_config` with
`raise_error=True` on a corrupt file (lines 299-300). -/
inductive SetErr
  | invalidKey
  | invalidValue
  | corruptFile (msg : String)
deriving DecidableEq, Repr

/-- Result of a `set_config` call: the warnings emitted and either the
new observable state or the raised error. -/
structure SetResult where
  warnings : List String
  outcome : Except SetErr ConfigState

/-- Auxiliary for `str.startswith`: is the first character list an initial
segment of the second? -/
def charsPrefixOf : List Char → List Char → Bool
  | [], _ => true
  | _ :: _, [] => false
  | a :: as, b :: bs => a == b && charsPrefixOf as bs

/-- Python `s.startswith(pre)`, computed on the character lists. -/
def pyStartsWith (s pre : String) : Bool :=
  charsPrefixOf pre.data s.data

/-- `key in known_config_types or any(key.startswith(k) for k in
known_config_wildcards)` (config.py lines 293-294). -/
def isKnownKey (key : String) : Bool :=
  known_config_types.contains key ||
    known_config_wildcards.any (fun k => pyStartsWith key k)

/-- `set_config(key, value, home_dir, set_env)` (config.py lines 265-320),
in source order: validate key, validate value (coercing a path-like to its
string), warn on a non-standard key, load the existing file with
`raise_error=True`, apply the update or deletion to the document and (when
`set_env`) to `os.environ`, and rewrite the file as the full sorted
document. -/
def set_config (key value : PyVal) (home_dir : String) (set_env : Bool)
    (st : ConfigState) : SetResult :=
  match key with
  | .str k =>
    let coerced : Option (Option String) :=
      match value with
      | .str s => some (some s)
      | .pathLike s => some (some s)
      | .pyNone => some none
      | .other _ => none
    match coerced with
    | none => { warnings := [], outcome := .error .invalidValue }
    | some v =>
      let warns := if isKnownKey k then [] else [nonStandardMsg k]
      let config_path := get_config_path home_dir
      match readConfigFile st.file config_path true with
      | .error m => { warnings := warns, outcome := .error (.corruptFile m) }
      | .ok (config, _) =>
        match v with
        | none =>
          let config2 := config.filter (fun p => p.1 != k)
          let env2 :=
            if set_env && (envLookup st.env k).isSome then
              st.env.filter (fun p => p.1 != k)
            else st.env
          { warnings := warns,
            outcome := .ok { file := .valid (sortDoc config2), env := env2 } }
        | some s =>
          let config2 := dictSet config k s
          let env2 := if set_env then dictSet st.env k s else st.env
          { warnings := warns,
            outcome := .ok { file := .valid (sortDoc config2), env := env2 } }
  | _ => { warnings := [], outcome := .error .invalidKey }

/-- The state a `set_config` call leaves behind: the new state on success,
the original state when an error was raised before any write. -/
def applySet (st : ConfigState) (r : SetResult) : ConfigState :=
  match r.outcome with
  | .ok st2 => st2
  | .error _ => st

/-- The two observable on-disk states of the persistence step of
`set_config` (config.py lines 319-320): `open(config_path, 'w')` first
truncates the file — a zero-length file is not valid JSON, hence
`FileState.corrupt` — and only then does `json.dump` write the full
sorted document.  There is no temp-file-and-rename protocol. -/
def persistPhases (doc : List (String × String)) : List FileState :=
  [FileState.corrupt, FileState.valid (sortDoc doc)]

/-- `msg` contains `part` as a contiguous substring. -/
def Carries (msg part : String) : Prop :=
  ∃ a b : String, msg = a ++ part ++ b

/-- `_validate_type(key, 'str', "key")` (config.py line 286): the key
argument must be a Python `str`. -/
def validKeyArg : PyVal → Bool
  | .str _ => true
  | _ => false

/-- `_validate_type(value, (str, 'path-like', type(None)), 'value')`
(config.py line 289): the value must be a string, path-like, or `None`. -/
def validValueArg : PyVal → Bool
  | .str _ => true
  | .pathLike _ => true
  | .pyNone => true
  | .other _ => false

/-- The document `set_config` starts from for a non-corrupt file: the
object of a valid file, the empty dict for a missing one (config.py
lines 299-302). -/
def fileDocD : FileState → List (String × String)
  | .valid doc => doc
  | _ => []

/-- Does the config file hold a binding for `k`?  A missing or corrupt
file holds none (a corrupt file is read as the empty dict on the
`get_config` path). -/
def fileHasKey : FileState → String → Bool
  | .valid doc, k => (doc.lookup k).isSome
  | _, _ => false

/-! ### Association-list lemmas -/

lemma lookup_cons (k : String) (q : String × String)
    (l : List (String × String)) :
    List.lookup k (q :: l) = if k = q.1 then some q.2 else List.lookup k l := by
  rcases q with ⟨a, b⟩
  by_cases h : k = a
  · subst h
    simp [List.lookup]
  · have hb : (k == a) = false := beq_eq_false_iff_ne.mpr h
    simp [List.lookup, hb, h]

lemma lookup_eq_none_of_forall (l : List (String × String)) (k : String)
    (h : ∀ p ∈ l, p.1 ≠ k) : l.lookup k = none := by
  induction l with
  | nil => rfl
  | cons q t ih =>
    rw [lookup_cons]
    have hq : q.1 ≠ k := h q (List.mem_cons_self q t)
    rw [if_neg (fun hk => hq hk.symm)]
    exact ih (fun p hp => h p (List.mem_cons_of_mem q hp))

lemma forall_of_lookup_eq_none (l : List (String × String)) (k : String)
    (h : l.lookup k = none) : ∀ p ∈ l, p.1 ≠ k := by
  induction l with
  | nil => intro p hp; cases hp
  | cons q t ih =>
    rw [lookup_cons] at h
    by_cases hk : k = q.1
    · rw [if_pos hk] at h; cases h
    · rw [if_neg hk] at h
      intro p hp
      rcases List.mem_cons.mp hp with hpq | hpt
      · subst hpq; exact fun hc => hk hc.symm
      · exact ih h p hpt

lemma mem_of_lookup_eq_some (l : List (String × String)) (k v : String)
    (h : l.lookup k = some v) : (k, v) ∈ l := by
  induction l with
  | nil => cases h
  | cons q t ih =>
    rw [lookup_cons] at h
    by_cases hk : k = q.1
    · rw [if_pos hk] at h
      have hv : q.2 = v := by injection h
      exact List.mem_cons.mpr (Or.inl (Prod.ext_iff.mpr ⟨hk, hv.symm⟩))
    · rw [if_neg hk] at h
      exact List.mem_cons_of_mem q (ih h)

lemma lookup_eq_some_of (l : List (String × String)) (k v : String)
    (hex : ∃ p ∈ l, p.1 = k)
    (hall : ∀ p ∈ l, p.1 = k → p.2 = v) : l.lookup k = some v := by
  induction l with
  | nil => rcases hex with ⟨p, hp, _⟩; cases hp
  | cons q t ih =>
    rw [lookup_cons]
    by_cases hk : k = q.1
    · rw [if_pos hk]
      have : q.2 = v := hall q (List.mem_cons_self q t) hk.symm
      rw [this]
    · rw [if_neg hk]
      apply ih
      · rcases hex with ⟨p, hp, hpk⟩
        rcases List.mem_cons.mp hp with hpq | hpt
        · exact absurd (hpq ▸ hpk).symm hk
        · exact ⟨p, hpt, hpk⟩
      · exact fun p hp hpk => hall p (List.mem_cons_of_mem q hp) hpk

lemma mem_insertSorted (p q : String × String)
    (l : List (String × String)) :
    p ∈ insertSorted q l ↔ p = q ∨ p ∈ l := by
  induction l with
  | nil => simp [insertSorted]
  | cons r t ih =>
    cases h : strLe q.1 r.1 with
    | true => simp [insertSorted, h]
    | false =>
      simp only [insertSorted, h, Bool.false_eq_true, if_false,
        List.mem_cons, ih]
      tauto

lemma mem_sortDoc (p : String × String) (l : List (String × String)) :
    p ∈ sortDoc l ↔ p ∈ l := by
  induction l with
  | nil => simp [sortDoc]
  | cons q t ih =>
    simp only [sortDoc, mem_insertSorted, ih, List.mem_cons]

lemma dictSet_forall_key (d : List (String × String)) (k v : String) :
    ∀ p ∈ dictSet d k v, p.1 = k → p.2 = v := by
  intro p hp hpk
  unfold dictSet at hp
  by_cases h : (d.lookup k).isSome
  · rw [if_pos h] at hp
    rcases List.mem_map.mp hp with ⟨q, _, hq⟩
    by_cases hqk : q.1 = k
    · rw [if_pos hqk] at hq; rw [← hq]
    · rw [if_neg hqk] at hq; exact absurd (hq ▸ hpk) hqk
  · rw [if_neg h] at hp
    rcases List.mem_append.mp hp with hpd | hps
    · have := forall_of_lookup_eq_none d k
        (Option.not_isSome_iff_eq_none.mp h) p hpd
      exact absurd hpk this
    · rcases List.mem_singleton.mp hps with rfl; rfl

lemma dictSet_exists_key (d : List (String × String)) (k v : String) :
    ∃ p ∈ dictSet d k v, p.1 = k := by
  unfold dictSet
  by_cases h : (d.lookup k).isSome
  · rw [if_pos h]
    rcases Option.isSome_iff_exists.mp h with ⟨v0, hv0⟩
    have hm : (k, v0) ∈ d := mem_of_lookup_eq_some d k v0 hv0
    refine ⟨(k, v), List.mem_map.mpr ⟨(k, v0), hm, ?_⟩, rfl⟩
    simp
  · rw [if_neg h]
    exact ⟨(k, v), List.mem_append_right d (List.mem_singleton.mpr rfl), rfl⟩

lemma dictSet_keys_subset (d : List (String × String)) (k v : String) :
    ∀ p ∈ dictSet d k v, p.1 = k ∨ p ∈ d := by
  intro p hp
  unfold dictSet at hp
  by_cases h : (d.lookup k).isSome
  · rw [if_pos h] at hp
    rcases List.mem_map.mp hp with ⟨q, hq, hfq⟩
    by_cases hqk : q.1 = k
    · rw [if_pos hqk] at hfq; left; rw [← hfq]
    · rw [if_neg hqk] at hfq; right; rw [← hfq]; exact hq
  · rw [if_neg h] at hp
    rcases List.mem_append.mp hp with hpd | hps
    · right; exact hpd
    · rcases List.mem_singleton.mp hps with rfl; left; rfl

lemma lookup_sortDoc_dictSet (d : List (String × String)) (k v : String) :
    (sortDoc (dictSet d k v)).lookup k = some v := by
  apply lookup_eq_some_of
  · rcases dictSet_exists_key d k v with ⟨p, hp, hpk⟩
    exact ⟨p, (mem_sortDoc p _).mpr hp, hpk⟩
  · intro p hp hpk
    exact dictSet_forall_key d k v p ((mem_sortDoc p _).mp hp) hpk

lemma lookup_sortDoc_filter_ne (d : List (String × String)) (k : String) :
    (sortDoc (d.filter (fun p => p.1 != k))).lookup k = none := by
  apply lookup_eq_none_of_forall
  intro p hp
  have hp2 := (mem_sortDoc p _).mp hp
  exact bne_iff_ne.mp (List.mem_filter.mp hp2).2

lemma lookup_filter_ne (d : List (String × String)) (k : String) :
    (d.filter (fun p => p.1 != k)).lookup k = none := by
  apply lookup_eq_none_of_forall
  intro p hp
  exact bne_iff_ne.mp (List.mem_filter.mp hp).2

lemma append_merge (a b c X : String) (h : a ++ b = c) :
    a ++ (b ++ X) = c ++ X := by
  rw [← String.append_assoc, h]

/-! ### Behaviour of `set_config` on well-typed arguments -/

/-- A `set_config` call with a string key and string value on a
non-corrupt file succeeds: it warns iff the key is unknown, rewrites the
file as the full sorted updated document, and mirrors the pair into the
environment iff `set_env`. -/
lemma set_config_ok_str (k v home : String) (se : Bool) (st : ConfigState)
    (hfile : st.file ≠ .corrupt) :
    set_config (.str k) (.str v) home se st =
      { warnings := if isKnownKey k then [] else [nonStandardMsg k],
        outcome := .ok ⟨.valid (sortDoc (dictSet (fileDocD st.file) k v)),
                        if se then dictSet st.env k v else st.env⟩ } := by
  rcases st with ⟨f, env⟩
  cases f with
  | absent => simp [set_config, readConfigFile, fileDocD]
  | corrupt => exact absurd rfl hfile
  | valid doc => simp [set_config, readConfigFile, load_config, fileDocD]

/-- A successful single-key read of a valid file returns the looked-up
value when the key is present in the document. -/
lemma get_config_file_hit (k v home : String) (d : Option String)
    (r : Bool) (doc env : List (String × String))
    (hk : k ≠ "") (hv : doc.lookup k = some v) :
    (get_config (some k) d r home false ⟨.valid doc, env⟩).1
      = .value (some v) := by
  simp [get_config, hk, readConfigFile, load_config, hv]

/-! ### The claims -/

/-- C1 (corrected), counterexample: the round-trip fails at the empty
string key.  `set_config("", "v")` succeeds and stores the pair, but
`get_config("")` is special-cased to return the list of known keys
(config.py line 227), not the stored value. -/
theorem c1_roundtrip_counterexample :
    (set_config (.str "") (.str "v") "h" true ⟨.absent, []⟩).outcome
        = Except.ok ⟨.valid [("", "v")], [("", "v")]⟩
    ∧ (get_config (some "") none false "h" false
          ⟨.valid [("", "v")], [("", "v")]⟩).1
        = .keys known_config_types
    ∧ GetResult.keys known_config_types ≠ GetResult.value (some "v") :=
  ⟨rfl, rfl, fun h => GetResult.noConfusion h⟩

/-- C1 (corrected), amended claim: for every nonempty string key `k` and
string value `v`, if `set_config(k, v)` completes successfully then
`get_config(k)` with `use_env=False` (against the state the write
produced) returns `v`, for any `default` and `raise_error`. -/
theorem c1_roundtrip_amended (k v home : String) (se r : Bool)
    (d : Option String) (st st2 : ConfigState)
    (hk : k ≠ "")
    (hok : (set_config (.str k) (.str v) home se st).outcome
             = Except.ok st2) :
    (get_config (some k) d r home false st2).1 = .value (some v) := by
  have hfile : st.file ≠ .corrupt := by
    intro hc
    rcases st with ⟨f, env⟩
    simp only at hc
    subst hc
    simp [set_config, readConfigFile, load_config] at hok
  rw [set_config_ok_str k v home se st hfile] at hok
  simp only at hok
  have hst2 : st2 = ⟨.valid (sortDoc (dictSet (fileDocD st.file) k v)),
                     if se then dictSet st.env k v else st.env⟩ := by
    injection hok with h
    exact h.symm
  subst hst2
  exact get_config_file_hit k v home d r _ _ hk
    (lookup_sortDoc_dictSet (fileDocD st.file) k v)

/-- C1 witness: the amended round-trip at a concrete input. -/
theorem c1_roundtrip_amended_witness :
    ("MNE_CACHE_DIR" ≠ ""
     ∧ (set_config (.str "MNE_CACHE_DIR") (.str "/tmp/x") "h" true
          ⟨.absent, []⟩).outcome
         = Except.ok ⟨.valid [("MNE_CACHE_DIR", "/tmp/x")],
                      [("MNE_CACHE_DIR", "/tmp/x")]⟩)
    ∧ (get_config (some "MNE_CACHE_DIR") none false "h" false
          ⟨.valid [("MNE_CACHE_DIR", "/tmp/x")],
           [("MNE_CACHE_DIR", "/tmp/x")]⟩).1
        = .value (some "/tmp/x") :=
  ⟨⟨by decide, rfl⟩,
   c1_roundtrip_amended "MNE_CACHE_DIR" "/tmp/x" "h" true false none
     ⟨.absent, []⟩ ⟨.valid [("MNE_CACHE_DIR", "/tmp/x")],
                    [("MNE_CACHE_DIR", "/tmp/x")]⟩ (by decide) rfl⟩

/-- C2 (confirmed): for a key present in the process environment
(environment-variable names are nonempty, which the hypothesis `hwf`
records), `get_config` with `use_env=True` returns the environment value
for any file state whatsoever and emits no warning — the file is not
consulted — while with `use_env=False` it returns the value stored in the
config file. -/
theorem c2_env_precedence (k v w home : String) (d : Option String)
    (r : Bool) (f : FileState) (doc env : List (String × String))
    (hwf : ∀ p ∈ env, p.1 ≠ "")
    (henv : envLookup env k = some v)
    (hdoc : doc.lookup k = some w) :
    get_config (some k) d r home true ⟨f, env⟩ = (.value (some v), [])
    ∧ (get_config (some k) d r home false ⟨.valid doc, env⟩).1
        = .value (some w) := by
  have hk : k ≠ "" := hwf (k, v) (mem_of_lookup_eq_some env k v henv)
  constructor
  · simp [get_config, hk, henv]
  · exact get_config_file_hit k w home d r doc env hk hdoc

/-- C2 witness: environment value wins with `use_env=True`, file value is
returned with `use_env=False`, at a concrete state. -/
theorem c2_env_precedence_witness :
    ((∀ p ∈ [("MNE_USE_CUDA", "env_value")], (p : String × String).1 ≠ "")
     ∧ envLookup [("MNE_USE_CUDA", "env_value")] "MNE_USE_CUDA"
         = some "env_value"
     ∧ ([("MNE_USE_CUDA", "file_value")] : List (String × String)).lookup
         "MNE_USE_CUDA" = some "file_value")
    ∧ (get_config (some "MNE_USE_CUDA") none false "h" true
         ⟨.valid [("MNE_USE_CUDA", "file_value")],
          [("MNE_USE_CUDA", "env_value")]⟩
         = (.value (some "env_value"), [])
       ∧ (get_config (some "MNE_USE_CUDA") none false "h" false
           ⟨.valid [("MNE_USE_CUDA", "file_value")],
            [("MNE_USE_CUDA", "env_value")]⟩).1
          = .value (some "file_value")) :=
  ⟨⟨by decide, rfl, rfl⟩,
   c2_env_precedence "MNE_USE_CUDA" "env_value" "file_value" "h" none
     false (.valid [("MNE_USE_CUDA", "file_value")])
     [("MNE_USE_CUDA", "file_value")] [("MNE_USE_CUDA", "env_value")]
     (by decide) rfl rfl⟩

/-- C3 (confirmed): on a file that is not valid JSON, `set_config` (with
well-typed arguments) raises the corrupt-file `RuntimeError` before
modifying anything — the observable state is unchanged — while a plain
`get_config` read of the same file (a nonempty key, `use_env=False` so
the file is actually consulted) emits the corrupt-file warning and
behaves exactly as if the file were an empty mapping. -/
theorem c3_corrupt_dual_policy (k v home : String) (set_env : Bool)
    (env : List (String × String)) (d : Option String) (r : Bool)
    (hk : k ≠ "") :
    (set_config (.str k) (.str v) home set_env ⟨.corrupt, env⟩).outcome
        = Except.error (.corruptFile (corruptMsg (get_config_path home)))
    ∧ applySet ⟨.corrupt, env⟩
        (set_config (.str k) (.str v) home set_env ⟨.corrupt, env⟩)
        = ⟨.corrupt, env⟩
    ∧ get_config (some k) d false home false ⟨.corrupt, env⟩
        = (.value d, [corruptMsg (get_config_path home)])
    ∧ (get_config (some k) d r home false ⟨.corrupt, env⟩).1
        = (get_config (some k) d r home false ⟨.absent, env⟩).1 := by
  refine ⟨?_, ?_, ?_, ?_⟩
  · simp [set_config, readConfigFile, load_config]
  · simp [applySet, set_config, readConfigFile, load_config]
  · simp [get_config, hk, readConfigFile, load_config]
  · cases r <;> simp [get_config, hk, readConfigFile, load_config]

/-- C3 witness: the corrupt-file dual policy at a concrete input. -/
theorem c3_corrupt_dual_policy_witness :
    ("MNE_USE_CUDA" ≠ "")
    ∧ ((set_config (.str "MNE_USE_CUDA") (.str "true") "h" true
          ⟨.corrupt, []⟩).outcome
        = Except.error (.corruptFile (corruptMsg (get_config_path "h")))
       ∧ applySet ⟨.corrupt, []⟩
           (set_config (.str "MNE_USE_CUDA") (.str "true") "h" true
             ⟨.corrupt, []⟩)
           = ⟨.corrupt, []⟩
       ∧ get_config (some "MNE_USE_CUDA") (some "D") false "h" false
           ⟨.corrupt, []⟩
           = (.value (some "D"), [corruptMsg (get_config_path "h")])
       ∧ (get_config (some "MNE_USE_CUDA") (some "D") false "h" false
            ⟨.corrupt, []⟩).1
           = (get_config (some "MNE_USE_CUDA") (some "D") false "h" false
               ⟨.absent, []⟩).1) :=
  ⟨by decide,
   c3_corrupt_dual_policy "MNE_USE_CUDA" "true" "h" true [] (some "D")
     false (by decide)⟩

/-- C8 (confirmed): a `set_config` call whose key is not a string, or
whose value is not a string, path-like, or `None`, fails with the
corresponding validation error, emits no warning, and leaves the config
file and the environment unchanged — validation happens before any
I/O. -/
theorem c8_validation_atomicity (key value : PyVal) (home : String)
    (set_env : Bool) (st : ConfigState)
    (h : validKeyArg key = false ∨ validValueArg value = false) :
    (set_config key value home set_env st).outcome
        = Except.error
            (if validKeyArg key then SetErr.invalidValue
             else SetErr.invalidKey)
    ∧ (set_config key value home set_env st).warnings = []
    ∧ applySet st (set_config key value home set_env st) = st := by
  cases key <;> cases value <;>
    simp [set_config, validKeyArg, validValueArg, applySet] at h ⊢

/-- C8 witness: an integer-like key and an integer-like value are each
rejected with the state untouched. -/
theorem c8_validation_atomicity_witness :
    (validKeyArg (.other "3") = false ∨ validValueArg (.str "x") = false)
    ∧ ((set_config (.other "3") (.str "x") "h" true ⟨.absent, []⟩).outcome
        = Except.error
            (if validKeyArg (.other "3") then SetErr.invalidValue
             else SetErr.invalidKey)
       ∧ (set_config (.other "3") (.str "x") "h" true
            ⟨.absent, []⟩).warnings = []
       ∧ applySet ⟨.absent, []⟩
           (set_config (.other "3") (.str "x") "h" true ⟨.absent, []⟩)
           = ⟨.absent, []⟩) :=
  ⟨Or.inl rfl,
   c8_validation_atomicity (.other "3") (.str "x") "h" true ⟨.absent, []⟩
     (Or.inl rfl)⟩

/-- A key absent from the environment (when consulted) and from the file
makes a strict (`raise_error=True`) lookup fail with the `KeyError`
message. -/
lemma get_config_missing_raises (k home : String) (d : Option String)
    (ue : Bool) (f : FileState) (env : List (String × String))
    (hk : k ≠ "") (henv : ue = true → envLookup env k = none)
    (hfile : fileHasKey f k = false) :
    (get_config (some k) d true home ue ⟨f, env⟩).1
      = .keyError (keyNotFoundMsg k (get_config_path home) ue) := by
  have hnone : ∀ doc, f = .valid doc → doc.lookup k = none := by
    intro doc hf
    subst hf
    cases h : doc.lookup k with
    | none => rfl
    | some w => rw [fileHasKey, h] at hfile; cases hfile
  cases ue with
  | false =>
    cases f with
    | absent => simp [get_config, hk, readConfigFile, load_config]
    | corrupt => simp [get_config, hk, readConfigFile, load_config]
    | valid doc =>
      simp [get_config, hk, readConfigFile, load_config, hnone doc rfl]
  | true =>
    have he := henv rfl
    cases f with
    | absent => simp [get_config, hk, he, readConfigFile, load_config]
    | corrupt => simp [get_config, hk, he, readConfigFile, load_config]
    | valid doc =>
      simp [get_config, hk, he, readConfigFile, load_config, hnone doc rfl]

/-- A key absent from the environment (when consulted) and from the file
makes a non-strict lookup return the caller-supplied default. -/
lemma get_config_missing_default (k home : String) (d : Option String)
    (ue : Bool) (f : FileState) (env : List (String × String))
    (hk : k ≠ "") (henv : ue = true → envLookup env k = none)
    (hfile : fileHasKey f k = false) :
    (get_config (some k) d false home ue ⟨f, env⟩).1 = .value d := by
  have hnone : ∀ doc, f = .valid doc → doc.lookup k = none := by
    intro doc hf
    subst hf
    cases h : doc.lookup k with
    | none => rfl
    | some w => rw [fileHasKey, h] at hfile; cases hfile
  cases ue with
  | false =>
    cases f with
    | absent => simp [get_config, hk, readConfigFile, load_config]
    | corrupt => simp [get_config, hk, readConfigFile, load_config]
    | valid doc =>
      simp [get_config, hk, readConfigFile, load_config, hnone doc rfl]
  | true =>
    have he := henv rfl
    cases f with
    | absent => simp [get_config, hk, he, readConfigFile, load_config]
    | corrupt => simp [get_config, hk, he, readConfigFile, load_config]
    | valid doc =>
      simp [get_config, hk, he, readConfigFile, load_config, hnone doc rfl]

/-- C4 (corrected), counterexample: deletion round-trip fails at the
empty string key.  `set_config("", None)` does remove the binding, but
the subsequent `get_config("", default="D")` returns the known-keys list
(config.py line 227), not the default. -/
theorem c4_deletion_counterexample :
    (set_config (.str "") PyVal.pyNone "h" true
        ⟨.valid [("", "x")], []⟩).outcome
      = Except.ok ⟨.valid [], []⟩
    ∧ (get_config (some "") (some "D") false "h" true ⟨.valid [], []⟩).1
      = .keys known_config_types
    ∧ GetResult.keys known_config_types ≠ GetResult.value (some "D") :=
  ⟨rfl, rfl, fun h => GetResult.noConfusion h⟩

/-- C4 (corrected), amended claim: for every nonempty key `k`,
`set_config(k, None, set_env=True)` removes `k` from the persisted
document and, if present, from the environment, and a subsequent
`get_config(k, default=D)` returns `D`. -/
theorem c4_deletion_amended (k D home : String)
    (doc env : List (String × String)) (hk : k ≠ "") :
    (set_config (.str k) PyVal.pyNone home true ⟨.valid doc, env⟩).outcome
        = Except.ok
            ⟨.valid (sortDoc (doc.filter (fun p => p.1 != k))),
             if (envLookup env k).isSome then
               env.filter (fun p => p.1 != k)
             else env⟩
    ∧ ∀ st2,
        (set_config (.str k) PyVal.pyNone home true
            ⟨.valid doc, env⟩).outcome = Except.ok st2 →
        (get_config (some k) (some D) false home true st2).1
          = .value (some D) := by
  have hout :
      (set_config (.str k) PyVal.pyNone home true
          ⟨.valid doc, env⟩).outcome
        = Except.ok
            ⟨.valid (sortDoc (doc.filter (fun p => p.1 != k))),
             if (envLookup env k).isSome then
               env.filter (fun p => p.1 != k)
             else env⟩ := by
    simp [set_config, readConfigFile, load_config]
  refine ⟨hout, ?_⟩
  intro st2 h2
  rw [hout] at h2
  have hst2 : st2 = ⟨.valid (sortDoc (doc.filter (fun p => p.1 != k))),
                     if (envLookup env k).isSome then
                       env.filter (fun p => p.1 != k)
                     else env⟩ := by
    injection h2 with h
    exact h.symm
  subst hst2
  apply get_config_missing_default k home (some D) true _ _ hk
  · intro _
    by_cases he : (envLookup env k).isSome
    · simp only [he, if_pos]
      exact lookup_filter_ne env k
    · simp only [he, if_neg, Bool.false_eq_true, not_false_iff]
      exact Option.not_isSome_iff_eq_none.mp (by simp [he])
  · rw [fileHasKey, lookup_sortDoc_filter_ne]
    rfl

/-- C4 witness: the amended deletion claim at a concrete state. -/
theorem c4_deletion_amended_witness :
    ("MNE_CACHE_DIR" ≠ "")
    ∧ ((set_config (.str "MNE_CACHE_DIR") PyVal.pyNone "h" true
          ⟨.valid [("MNE_CACHE_DIR", "/tmp/x")],
           [("MNE_CACHE_DIR", "/tmp/x")]⟩).outcome
        = Except.ok
            ⟨.valid ([("MNE_CACHE_DIR", "/tmp/x")].filter
                (fun p => p.1 != "MNE_CACHE_DIR") |> sortDoc),
             if (envLookup [("MNE_CACHE_DIR", "/tmp/x")]
                   "MNE_CACHE_DIR").isSome then
               [("MNE_CACHE_DIR", "/tmp/x")].filter
                 (fun p => p.1 != "MNE_CACHE_DIR")
             else [("MNE_CACHE_DIR", "/tmp/x")]⟩
       ∧ ∀ st2,
          (set_config (.str "MNE_CACHE_DIR") PyVal.pyNone "h" true
              ⟨.valid [("MNE_CACHE_DIR", "/tmp/x")],
               [("MNE_CACHE_DIR", "/tmp/x")]⟩).outcome
            = Except.ok st2 →
          (get_config (some "MNE_CACHE_DIR") (some "D") false "h" true
              st2).1 = .value (some "D")) :=
  ⟨by decide,
   c4_deletion_amended "MNE_CACHE_DIR" "D" "h"
     [("MNE_CACHE_DIR", "/tmp/x")] [("MNE_CACHE_DIR", "/tmp/x")]
     (by decide)⟩

/-- C5 (corrected), counterexample: strict lookup does not raise at the
empty string key.  With `raise_error=True`, a key absent from both the
(empty) environment and the (absent) file should raise per the claim, but
`get_config("")` returns the known-keys list instead. -/
theorem c5_strict_missing_counterexample :
    (get_config (some "") none true "HOME" true ⟨.absent, []⟩).1
        = .keys known_config_types
    ∧ GetResult.keys known_config_types
        ≠ .keyError (keyNotFoundMsg "" (get_config_path "HOME") true) :=
  ⟨rfl, fun h => GetResult.noConfusion h⟩

/-- C5 (corrected), amended claim: for every nonempty key absent from
both the environment and the config file, `get_config` with
`raise_error=True` and `use_env=True` raises a `KeyError` whose message
carries the resolved config file path, the environment-variable remedy,
and the persist (`set_config`) remedy. -/
theorem c5_strict_missing_amended (k home : String) (d : Option String)
    (st : ConfigState) (hk : k ≠ "")
    (henv : envLookup st.env k = none)
    (hfile : fileHasKey st.file k = false) :
    (get_config (some k) d true home true st).1
        = .keyError (keyNotFoundMsg k (get_config_path home) true)
    ∧ Carries (keyNotFoundMsg k (get_config_path home) true)
        (get_config_path home)
    ∧ Carries (keyNotFoundMsg k (get_config_path home) true)
        ("os.environ[\x22" ++ k ++ "\x22] = VALUE")
    ∧ Carries (keyNotFoundMsg k (get_config_path home) true)
        ("mne.utils.set_config(\x22" ++ k ++ "\x22, VALUE, set_env=True)") := by
  refine ⟨?_, ?_, ?_, ?_⟩
  · rcases st with ⟨f, env⟩
    exact get_config_missing_raises k home d true f env hk
      (fun _ => henv) hfile
  · refine ⟨"Key \x22" ++ k ++ "\x22 not found in " ++
      "the environment or in the " ++ "the mne-python config file (",
      "). Try " ++
      ("either os.environ[\x22" ++ k ++
        "\x22] = VALUE for a temporary solution, or ") ++
      ("mne.utils.set_config(\x22" ++ k ++
        "\x22, VALUE, set_env=True) for a permanent one") ++ "." ++
      " You can also set the environment variable before running python.",
      ?_⟩
    simp [keyNotFoundMsg, String.append_assoc]
  · refine ⟨"Key \x22" ++ k ++ "\x22 not found in " ++
      "the environment or in the " ++ "the mne-python config file (" ++
      get_config_path home ++ "). Try " ++ "either ",
      " for a temporary solution, or " ++
      ("mne.utils.set_config(\x22" ++ k ++
        "\x22, VALUE, set_env=True) for a permanent one") ++ "." ++
      " You can also set the environment variable before running python.",
      ?_⟩
    simp [keyNotFoundMsg, String.append_assoc]
    rw [append_merge "). Try " "either os.environ[\x22"
          "). Try either os.environ[\x22" _ (by decide),
        append_merge "). Try either " "os.environ[\x22"
          "). Try either os.environ[\x22" _ (by decide),
        append_merge "\x22] = VALUE" " for a temporary solution, or "
          "\x22] = VALUE for a temporary solution, or " _ (by decide)]
  · have h3 : ("\x22, VALUE, set_env=True) for a permanent one" : String)
        = "\x22, VALUE, set_env=True)" ++ " for a permanent one" := by decide
    refine ⟨"Key \x22" ++ k ++ "\x22 not found in " ++
      "the environment or in the " ++ "the mne-python config file (" ++
      get_config_path home ++ "). Try " ++
      ("either os.environ[\x22" ++ k ++
        "\x22] = VALUE for a temporary solution, or "),
      " for a permanent one" ++ "." ++
      " You can also set the environment variable before running python.",
      ?_⟩
    simp only [keyNotFoundMsg, if_pos]
    rw [h3]
    simp [String.append_assoc]

/-- C5 witness: the amended strict-missing claim at a concrete state. -/
theorem c5_strict_missing_amended_witness :
    ("NEVER_SET_KEY" ≠ ""
     ∧ envLookup (⟨.absent, []⟩ : ConfigState).env "NEVER_SET_KEY" = none
     ∧ fileHasKey (⟨.absent, []⟩ : ConfigState).file "NEVER_SET_KEY"
         = false)
    ∧ ((get_config (some "NEVER_SET_KEY") none true "HOME" true
          ⟨.absent, []⟩).1
        = .keyError
            (keyNotFoundMsg "NEVER_SET_KEY" (get_config_path "HOME") true)
       ∧ Carries
           (keyNotFoundMsg "NEVER_SET_KEY" (get_config_path "HOME") true)
           (get_config_path "HOME")
       ∧ Carries
           (keyNotFoundMsg "NEVER_SET_KEY" (get_config_path "HOME") true)
           ("os.environ[\x22" ++ "NEVER_SET_KEY" ++ "\x22] = VALUE")
       ∧ Carries
           (keyNotFoundMsg "NEVER_SET_KEY" (get_config_path "HOME") true)
           ("mne.utils.set_config(\x22" ++ "NEVER_SET_KEY" ++
             "\x22, VALUE, set_env=True)")) :=
  ⟨⟨by decide, rfl, rfl⟩,
   c5_strict_missing_amended "NEVER_SET_KEY" "HOME" none ⟨.absent, []⟩
     (by decide) rfl rfl⟩

/-- C10 (corrected), counterexample: the implicit claim fails at the
empty string key: with `raise_error=True` and a non-None default, a key
absent from both environment and file should raise, but
`get_config("", default="D", raise_error=True)` returns the known-keys
list — neither a `KeyError` nor the default. -/
theorem c10_default_override_counterexample :
    (get_config (some "") (some "D") true "HOME" true ⟨.absent, []⟩).1
        = .keys known_config_types
    ∧ GetResult.keys known_config_types
        ≠ .keyError (keyNotFoundMsg "" (get_config_path "HOME") true)
    ∧ GetResult.keys known_config_types ≠ GetResult.value (some "D") :=
  ⟨rfl, fun h => GetResult.noConfusion h, fun h => GetResult.noConfusion h⟩

/-- C10 (corrected), amended claim: for every nonempty key absent from
both the environment (when `use_env=True`) and the config file,
`get_config` with `raise_error=True` raises even when a non-None default
is supplied, and the default is returned when `raise_error=False`. -/
theorem c10_default_override_amended (k home D : String) (ue : Bool)
    (st : ConfigState) (hk : k ≠ "")
    (henv : ue = true → envLookup st.env k = none)
    (hfile : fileHasKey st.file k = false) :
    (get_config (some k) (some D) true home ue st).1
        = .keyError (keyNotFoundMsg k (get_config_path home) ue)
    ∧ (get_config (some k) (some D) false home ue st).1
        = .value (some D) := by
  rcases st with ⟨f, env⟩
  exact ⟨get_config_missing_raises k home (some D) ue f env hk henv hfile,
         get_config_missing_default k home (some D) ue f env hk henv hfile⟩

/-- C10 witness: the amended claim at a concrete state with a non-None
default. -/
theorem c10_default_override_amended_witness :
    ("MNE_TQDM" ≠ ""
     ∧ (true = true →
         envLookup (⟨.absent, []⟩ : ConfigState).env "MNE_TQDM" = none)
     ∧ fileHasKey (⟨.absent, []⟩ : ConfigState).file "MNE_TQDM" = false)
    ∧ ((get_config (some "MNE_TQDM") (some "D") true "HOME" true
          ⟨.absent, []⟩).1
        = .keyError (keyNotFoundMsg "MNE_TQDM" (get_config_path "HOME") true)
       ∧ (get_config (some "MNE_TQDM") (some "D") false "HOME" true
           ⟨.absent, []⟩).1
        = .value (some "D")) :=
  ⟨⟨by decide, fun _ => rfl, rfl⟩,
   c10_default_override_amended "MNE_TQDM" "HOME" "D" true ⟨.absent, []⟩
     (by decide) (fun _ => rfl) rfl⟩

/-- Folding dict updates over keys different from `name` never introduces
a binding for `name`. -/
lemma overlay_foldl_lookup_none (name : String) (val : String → String) :
    ∀ (ks : List String) (acc : List (String × String)),
      (∀ x ∈ ks, x ≠ name) → acc.lookup name = none →
      (ks.foldl (fun acc k => dictSet acc k (val k)) acc).lookup name
        = none := by
  intro ks
  induction ks with
  | nil => intro acc _ h; simpa using h
  | cons x t ih =>
    intro acc hks hacc
    simp only [List.foldl_cons]
    apply ih
    · intro y hy; exact hks y (List.mem_cons_of_mem x hy)
    · apply lookup_eq_none_of_forall
      intro p hp
      rcases dictSet_keys_subset acc x (val x) p hp with h1 | h2
      · rw [h1]; exact hks x (List.mem_cons_self x t)
      · exact forall_of_lookup_eq_none acc name hacc p h2

/-- The env overlay of `get_config(key=None, use_env=True)` introduces no
binding for a name that is neither a key of the loaded document nor an
exact `known_config_types` member. -/
lemma overlayEnv_lookup_none (config env : List (String × String))
    (name : String) (hc : config.lookup name = none)
    (hk : known_config_types.contains name = false) :
    (overlayEnv config env).lookup name = none := by
  unfold overlayEnv
  apply overlay_foldl_lookup_none name _ _ config ?_ hc
  intro x hx hxname
  subst hxname
  have hcond := (List.mem_filter.mp hx).2
  rw [hc, hk] at hcond
  simp at hcond

/-- C6 (corrected), counterexample: an environment variable with a
wildcard-prefixed name (`MNE_NIRS_FOO` starts with the `MNE_NIRS`
wildcard) that is neither an exact `known_config_types` member nor a key
of the config file is NOT included in the `get_config(key=None,
use_env=True)` snapshot: against an absent file the snapshot is empty. -/
theorem c6_wildcard_overlay_counterexample :
    pyStartsWith "MNE_NIRS_FOO" "MNE_NIRS" = true
    ∧ known_config_types.contains "MNE_NIRS_FOO" = false
    ∧ get_config none none false "h" true
        ⟨.absent, [("MNE_NIRS_FOO", "x")]⟩
        = (.mapping [], [])
    ∧ ([] : List (String × String)).lookup "MNE_NIRS_FOO" = none :=
  ⟨rfl, by decide, rfl, rfl⟩

/-- C6 (corrected), amended claim: the full-snapshot overlay of
`get_config(key=None, use_env=True)` consults only exact
`known_config_types` members and existing document keys; an environment
variable whose name merely starts with a known wildcard, and is neither
an exact known key nor a document key, is excluded from the returned
snapshot. -/
theorem c6_wildcard_overlay_amended (name home : String)
    (d : Option String) (r : Bool) (config env : List (String × String))
    (_hw : known_config_wildcards.any
             (fun p => pyStartsWith name p) = true)
    (hk : known_config_types.contains name = false)
    (hc : config.lookup name = none) :
    (get_config none d r home true ⟨.valid config, env⟩).1
        = .mapping (overlayEnv config env)
    ∧ (overlayEnv config env).lookup name = none := by
  constructor
  · simp [get_config, readConfigFile, load_config]
  · exact overlayEnv_lookup_none config env name hc hk

/-- C6 witness: the amended overlay claim at a concrete state with a
wildcard-prefixed environment variable present. -/
theorem c6_wildcard_overlay_amended_witness :
    (known_config_wildcards.any
        (fun p => pyStartsWith "MNE_NIRS_FOO" p) = true
     ∧ known_config_types.contains "MNE_NIRS_FOO" = false
     ∧ ([("MNE_DATA", "/d")] : List (String × String)).lookup
         "MNE_NIRS_FOO" = none)
    ∧ ((get_config none none false "h" true
          ⟨.valid [("MNE_DATA", "/d")],
           [("MNE_NIRS_FOO", "x"), ("MNE_DATA", "/e")]⟩).1
        = .mapping (overlayEnv [("MNE_DATA", "/d")]
            [("MNE_NIRS_FOO", "x"), ("MNE_DATA", "/e")])
       ∧ (overlayEnv [("MNE_DATA", "/d")]
            [("MNE_NIRS_FOO", "x"), ("MNE_DATA", "/e")]).lookup
           "MNE_NIRS_FOO" = none) :=
  ⟨⟨rfl, by decide, rfl⟩,
   c6_wildcard_overlay_amended "MNE_NIRS_FOO" "h" none false
     [("MNE_DATA", "/d")] [("MNE_NIRS_FOO", "x"), ("MNE_DATA", "/e")]
     rfl (by decide) rfl⟩

/-- C7 (corrected), counterexample: the write of `set_config` is
truncate-then-dump, so the mid-write file state is a truncated — hence
corrupt, not-previously-good — file.  Concretely, while persisting the
update of `MNE_USE_CUDA` into a file that held `MNE_CACHE_DIR`, the
intermediate on-disk state is `corrupt`, which is not the previously-good
contents: an interruption there does leave them corrupted, contrary to
the claim. -/
theorem c7_atomic_persistence_counterexample :
    persistPhases
        (dictSet [("MNE_CACHE_DIR", "/tmp/x")] "MNE_USE_CUDA" "true")
      = [FileState.corrupt,
         .valid [("MNE_CACHE_DIR", "/tmp/x"), ("MNE_USE_CUDA", "true")]]
    ∧ FileState.corrupt ≠ .valid [("MNE_CACHE_DIR", "/tmp/x")] :=
  ⟨by decide, fun h => FileState.noConfusion h⟩

/-- C7 (corrected), amended claim: every successful `set_config` rewrites
the document file in full — the resulting file is exactly the
serialization of the whole updated, key-sorted document, independent of
the previous file bytes — but the write is an in-place truncate followed
by the dump (no temp-file-and-rename), so the intermediate mid-write
state is a corrupt (truncated) file and an interruption there loses the
previously-good contents. -/
theorem c7_full_rewrite_amended (k v home : String) (se : Bool)
    (doc env : List (String × String)) :
    set_config (.str k) (.str v) home se ⟨.valid doc, env⟩
      = { warnings := if isKnownKey k then [] else [nonStandardMsg k],
          outcome := .ok ⟨.valid (sortDoc (dictSet doc k v)),
                          if se then dictSet env k v else env⟩ }
    ∧ persistPhases (dictSet doc k v)
        = [FileState.corrupt, .valid (sortDoc (dictSet doc k v))] := by
  refine ⟨?_, rfl⟩
  have h := set_config_ok_str k v home se ⟨.valid doc, env⟩
    (fun h => FileState.noConfusion h)
  simpa [fileDocD] using h

/-- C9 (corrected), counterexample: the write does not proceed in all
cases — on a corrupt existing file, `set_config` of even a perfectly
standard key raises instead of writing. -/
theorem c9_unknown_key_counterexample :
    isKnownKey "MNE_USE_CUDA" = true
    ∧ (set_config (.str "MNE_USE_CUDA") (.str "true") "h" true
        ⟨.corrupt, []⟩).outcome
      = Except.error (.corruptFile (corruptMsg (get_config_path "h"))) :=
  ⟨rfl, rfl⟩

/-- C9 (corrected), amended claim: `set_config` emits the non-standard
warning iff the key is neither an exact known key nor wildcard-prefixed
(the `warnings` list is exactly determined by `isKnownKey`); and when the
key is nonempty and the existing file is not corrupt, the write proceeds
and the value is subsequently retrievable with `use_env=False`. -/
theorem c9_unknown_key_amended (k v home : String) (se : Bool)
    (st : ConfigState) (hk : k ≠ "") (hfile : st.file ≠ .corrupt) :
    (set_config (.str k) (.str v) home se st).warnings
        = (if isKnownKey k then [] else [nonStandardMsg k])
    ∧ (set_config (.str k) (.str v) home se st).outcome
        = Except.ok ⟨.valid (sortDoc (dictSet (fileDocD st.file) k v)),
                     if se then dictSet st.env k v else st.env⟩
    ∧ ∀ st2,
        (set_config (.str k) (.str v) home se st).outcome
          = Except.ok st2 →
        (get_config (some k) none false home false st2).1
          = .value (some v) := by
  have h := set_config_ok_str k v home se st hfile
  refine ⟨by rw [h], by rw [h], ?_⟩
  intro st2 h2
  rw [h] at h2
  simp only at h2
  have hst2 : st2 = ⟨.valid (sortDoc (dictSet (fileDocD st.file) k v)),
                     if se then dictSet st.env k v else st.env⟩ := by
    injection h2 with h3
    exact h3.symm
  subst hst2
  exact get_config_file_hit k v home none false _ _ hk
    (lookup_sortDoc_dictSet (fileDocD st.file) k v)

/-- C9 witness: a wildcard-prefixed key (`MNE_STIM_CHANNEL_7`) produces
no warning, the write proceeds, and the value is retrievable. -/
theorem c9_unknown_key_amended_witness :
    ("MNE_STIM_CHANNEL_7" ≠ ""
     ∧ (⟨.absent, []⟩ : ConfigState).file ≠ .corrupt)
    ∧ ((set_config (.str "MNE_STIM_CHANNEL_7") (.str "x") "h" true
          ⟨.absent, []⟩).warnings
        = (if isKnownKey "MNE_STIM_CHANNEL_7" then []
           else [nonStandardMsg "MNE_STIM_CHANNEL_7"])
       ∧ (set_config (.str "MNE_STIM_CHANNEL_7") (.str "x") "h" true
            ⟨.absent, []⟩).outcome
          = Except.ok
              ⟨.valid (sortDoc (dictSet
                  (fileDocD (⟨.absent, []⟩ : ConfigState).file)
                  "MNE_STIM_CHANNEL_7" "x")),
               if true then dictSet ([] : List (String × String))
                 "MNE_STIM_CHANNEL_7" "x" else []⟩
       ∧ ∀ st2,
          (set_config (.str "MNE_STIM_CHANNEL_7") (.str "x") "h" true
              ⟨.absent, []⟩).outcome = Except.ok st2 →
          (get_config (some "MNE_STIM_CHANNEL_7") none false "h" false
              st2).1 = .value (some "x")) :=
  ⟨⟨by decide, fun h => by cases h⟩,
   c9_unknown_key_amended "MNE_STIM_CHANNEL_7" "x" "h" true
     ⟨.absent, []⟩ (by decide) (fun h => by cases h)⟩

end Mne
